import Mathlib

/-!
Verification of the resilient request layer, the tenant access gate and the
phone-number canonicalization of the SalesNinja repository.

The definitions below are a shallow embedding of the TypeScript source:

* `src/lib/auth.ts` — `normalizePhoneNumber` (dealer login canonicalization);
* `src/app/page.tsx` — the inline officer-login normalization (a second copy
  of the same algorithm);
* `src/lib/api-client.ts` — `isRetryableError`, `calculateDelay`,
  `getCurrentDealerId` and the retry loop of `apiRequest`;
* `src/app/api/officers/route.ts` and `src/app/api/leads/route.ts` — the two
  GET handlers implementing the tenant access gate (public vs scoped mode).

JavaScript string primitives (`startsWith`, `substring`, `includes`,
truthiness of strings, the `||` fallback on nullable strings) are modelled
explicitly so that every definition computes inside the kernel.  Machine
numbers are modelled as `Nat`: every numeric value involved (HTTP statuses,
millisecond delays, attempt counters) is a small non-negative integer, far
from any floating point edge.  The network is modelled as an oracle
`Nat → Outcome` giving the outcome of each attempt, and the remote database
as explicit lists of rows; `dbError` flags model the Supabase error results.
Presentation-only fields of errors (message text, code string) are omitted;
the retryability flag, status and network-error flag are kept.
-/

/-! ## JavaScript string primitives -/

/-- Char-list version of JS `String.prototype.startsWith`. -/
def matchStart : List Char → List Char → Bool
  | _, [] => true
  | [], _ :: _ => false
  | c :: cs, d :: ds => c == d && matchStart cs ds

/-- JS `s.startsWith(p)`. -/
def jsStartsWith (s p : String) : Bool := matchStart s.data p.data

/-- JS `s.substring(n)` (all inputs here are ASCII digit strings). -/
def jsSubstringFrom (s : String) (n : Nat) : String := String.mk (s.data.drop n)

/-- Char-list version of JS `String.prototype.includes`. -/
def hasSub : List Char → List Char → Bool
  | [], sub => sub.isEmpty
  | c :: cs, sub => matchStart (c :: cs) sub || hasSub cs sub

/-- JS `s.includes(sub)`. -/
def jsIncludes (s sub : String) : Bool := hasSub s.data sub.data

/-- JS `phone.replace(/\D/g, "")`: keep only the decimal digits. -/
def stripNonDigits (s : String) : String := String.mk (s.data.filter Char.isDigit)

/-- JS truthiness of a nullable string: `null` and the empty string are falsy. -/
def jsTruthy : Option String → Bool
  | none => false
  | some s => s ≠ ""

/-- JS `a || b` on nullable strings: `b` when `a` is `null` or empty. -/
def jsOr (a b : Option String) : Option String :=
  match a with
  | some s => if s = "" then b else some s
  | none => b

/-! ## Identity normalizer — `normalizePhoneNumber` in `src/lib/auth.ts` -/

/-- `normalizePhoneNumber` from `src/lib/auth.ts` (dealer login). -/
def normalizePhoneNumber (phone : String) : String :=
  let cleaned := stripNonDigits phone
  let cleaned :=
    if jsStartsWith cleaned "0" then "255" ++ jsSubstringFrom cleaned 1
    else if jsStartsWith cleaned "255" then cleaned
    else if cleaned.length = 9 then "255" ++ cleaned
    else "255" ++ cleaned
  "+" ++ cleaned

/-- The inline phone normalization of the officer login component in
`src/app/page.tsx` (the `handleLogin` sequence of reassignments of
`normalizedPhone`), written as the same chain of branches. -/
def officerLoginNormalizePhone (phone : String) : String :=
  let normalizedPhone := stripNonDigits phone
  let normalizedPhone :=
    if jsStartsWith normalizedPhone "0" then "255" ++ jsSubstringFrom normalizedPhone 1
    else if jsStartsWith normalizedPhone "255" then normalizedPhone
    else if normalizedPhone.length = 9 then "255" ++ normalizedPhone
    else "255" ++ normalizedPhone
  "+" ++ normalizedPhone

/-! ## Retry machinery — `src/lib/api-client.ts` -/

/-- `RetryConfig` from `src/lib/api-client.ts`. -/
structure RetryConfig where
  maxAttempts : Nat
  baseDelay : Nat
  maxDelay : Nat
  backoffMultiplier : Nat
deriving DecidableEq

/-- `DEFAULT_RETRY_CONFIG` from `src/lib/api-client.ts`. -/
def DEFAULT_RETRY_CONFIG : RetryConfig :=
  { maxAttempts := 2, baseDelay := 1500, maxDelay := 30000, backoffMultiplier := 2 }

/-- `ApiClientError` from `src/lib/api-client.ts`, restricted to the fields
the retry loop consults (message and code are presentation only). -/
structure ApiClientError where
  status : Option Nat
  isNetworkError : Bool
  isRetryable : Bool
deriving DecidableEq

/-- `isRetryableError` from `src/lib/api-client.ts`.  The argument is the
optional `status` property of the error object: `none` models an error value
with no `status` property (transport failure). -/
def isRetryableError (status : Option Nat) : Bool :=
  match status with
  | none => true
  | some s =>
    if 500 ≤ s then true
    else if s = 429 then true
    else if s = 408 then true
    else false

/-- `calculateDelay` from `src/lib/api-client.ts`. -/
def calculateDelay (attempt : Nat) (config : RetryConfig) : Nat :=
  min (config.baseDelay * config.backoffMultiplier ^ (attempt - 1)) config.maxDelay

/-- Outcome of one network attempt, as observed by the `apiRequest` loop:
a successful response with a body, an HTTP error response with a status, or
a thrown exception (timeout / AbortError / TypeError), whose
`isNetworkError` classification is given by the flag. -/
inductive Outcome where
  | success (body : String)
  | httpError (status : Nat)
  | thrown (isNetworkError : Bool)
deriving DecidableEq

/-- The `ApiClientError` that `apiRequest` constructs for a failing outcome
(`none` for a successful outcome). -/
def classifyOutcome : Outcome → Option ApiClientError
  | Outcome.success _ => none
  | Outcome.httpError s =>
    some { status := some s, isNetworkError := false, isRetryable := isRetryableError (some s) }
  | Outcome.thrown net =>
    some { status := none, isNetworkError := net, isRetryable := net }

/-- Observable result of one `apiRequest` call: the returned body or thrown
error (`Except.error none` models the unreachable `throw lastError!` with an
unset `lastError`), the number of network calls issued, and the list of
backoff sleeps performed, in order. -/
structure RunResult where
  result : Except (Option ApiClientError) String
  calls : Nat
  delays : List Nat

/-- The `for (let attempt = 1; attempt <= config.maxAttempts; attempt++)`
loop of `apiRequest` in `src/lib/api-client.ts`.  `fuel` is the number of
iterations the loop guard still allows, kept as
`config.maxAttempts + 1 - attempt`; at `fuel = 0` the loop exits and the
trailing `throw lastError!` fires.  A success returns the body at once; a
failure is classified, rethrown when not retryable or when the attempt
budget is reached, and otherwise followed by a `calculateDelay` sleep
(guarded by `attempt < config.maxAttempts`) and the next iteration. -/
def runLoop (config : RetryConfig) (outcomes : Nat → Outcome) :
    Nat → Nat → Option ApiClientError → RunResult
  | _attempt, 0, lastError => { result := Except.error lastError, calls := 0, delays := [] }
  | attempt, fuel + 1, _lastError =>
    match outcomes attempt with
    | Outcome.success body => { result := Except.ok body, calls := 1, delays := [] }
    | Outcome.httpError s =>
      let e : ApiClientError :=
        { status := some s, isNetworkError := false, isRetryable := isRetryableError (some s) }
      if !e.isRetryable || attempt == config.maxAttempts then
        { result := Except.error (some e), calls := 1, delays := [] }
      else
        let rest := runLoop config outcomes (attempt + 1) fuel (some e)
        let ds :=
          if attempt < config.maxAttempts then calculateDelay attempt config :: rest.delays
          else rest.delays
        { result := rest.result, calls := rest.calls + 1, delays := ds }
    | Outcome.thrown net =>
      let e : ApiClientError := { status := none, isNetworkError := net, isRetryable := net }
      if !e.isRetryable || attempt == config.maxAttempts then
        { result := Except.error (some e), calls := 1, delays := [] }
      else
        let rest := runLoop config outcomes (attempt + 1) fuel (some e)
        let ds :=
          if attempt < config.maxAttempts then calculateDelay attempt config :: rest.delays
          else rest.delays
        { result := rest.result, calls := rest.calls + 1, delays := ds }

/-- One call to `apiRequest` with the given (already merged) config against
the attempt oracle `outcomes`. -/
def apiRequest (config : RetryConfig) (outcomes : Nat → Outcome) : RunResult :=
  runLoop config outcomes 1 config.maxAttempts none

/-! ## Data model — `src/types/index.ts` -/

/-- `Dealer` from `src/types/index.ts` (a Tenant); timestamps omitted. -/
structure Dealer where
  id : String
  name : String
  email : Option String
  phone : String
  company : String
deriving DecidableEq

/-- `Officer` from `src/types/index.ts` (an Agent); the embedded dealer
object and timestamps are omitted, `dealer_id` is the ownership link. -/
structure Officer where
  id : String
  name : String
  phone : String
  dealer_id : String
deriving DecidableEq

/-- `Lead` from `src/types/index.ts` (a Record), restricted to the fields
the leads route consults: the `officer_id` ownership link and the
`created_at` sort key (modelled as a numeric timestamp). -/
structure Lead where
  id : String
  officer_id : String
  created_at : Nat
deriving DecidableEq

/-! ## Session context — `getCurrentDealerId` in `src/lib/api-client.ts` -/

/-- `getCurrentDealerId` from `src/lib/api-client.ts`: the client-local
store holds at most one parsed dealer object; `dealer?.id || null` yields
`null` when no dealer is stored or its id is falsy (empty). -/
def getCurrentDealerId (store : Option Dealer) : Option String :=
  match store with
  | none => none
  | some dealer => if dealer.id = "" then none else some dealer.id

/-- The `x-dealer-id` header attached by `apiRequest`
(`...(dealerId && { x-dealer-id: dealerId })`): present exactly when
`getCurrentDealerId` is non-null, carrying that value. -/
def requestDealerHeader (store : Option Dealer) : Option String :=
  getCurrentDealerId store

/-! ## Tenant access gate — the two GET route handlers -/

/-- Body of a route response: a JSON row list on success, or the error code
of the JSON error object. -/
inductive RouteBody (α : Type) where
  | rows (data : List α)
  | err (code : String)
deriving DecidableEq

/-- A `NextResponse.json` value: HTTP status plus body. -/
structure RouteResponse (α : Type) where
  status : Nat
  body : RouteBody α
deriving DecidableEq

/-- `.order(created_at, { ascending: false })` on the leads table. -/
def sortLeads (l : List Lead) : List Lead :=
  l.mergeSort (fun a b => decide (b.created_at ≤ a.created_at))

namespace OfficersApi

/-- The inbound request of the officers route: the `x-dealer-id` header and
the recognized query parameters. -/
structure Request where
  headerDealerId : Option String
  search : Option String
  publicParam : Option String
  dealerIdParam : Option String

/-- `getDealerFromRequest` from `src/app/api/officers/route.ts`. -/
def getDealerFromRequest (req : Request) : Option String := req.headerDealerId

/-- The `GET` handler of `src/app/api/officers/route.ts` (Supabase
configured; `dbError` models the query returning an error).  Scoped mode
(no `public=true`) filters by the resolved dealer id and fails closed to an
empty 200 response when none is resolvable; the search filter applies
last. -/
def GET (officersDb : List Officer) (dbError : Bool) (req : Request) :
    RouteResponse Officer :=
  let search := req.search.map String.toLower
  let isPublic := req.publicParam == some "true"
  let dealerId := jsOr (getDealerFromRequest req) req.dealerIdParam
  if !isPublic && !jsTruthy dealerId then
    { status := 200, body := RouteBody.rows [] }
  else
    let rows := if !isPublic then officersDb.filter (fun o => some o.dealer_id == dealerId)
                else officersDb
    if dbError then
      { status := 500, body := RouteBody.err "OFFICERS_FETCH_ERROR" }
    else
      let filteredOfficers :=
        if jsTruthy search then
          rows.filter (fun o =>
            jsIncludes o.name.toLower (search.getD "") ||
            jsIncludes o.phone.toLower (search.getD ""))
        else rows
      { status := 200, body := RouteBody.rows filteredOfficers }

end OfficersApi

namespace LeadsApi

/-- The inbound request of the leads route: the `x-dealer-id` header and
the recognized query parameters. -/
structure Request where
  headerDealerId : Option String
  officerIdParam : Option String
  publicParam : Option String
  dealerIdParam : Option String

/-- `getDealerFromRequest` from `src/app/api/leads/route.ts`. -/
def getDealerFromRequest (req : Request) : Option String := req.headerDealerId

/-- The `GET` handler of `src/app/api/leads/route.ts` (Supabase configured;
`officersLookupError` models the dealer-officers lookup returning an error,
`dbError` the leads query returning one).  Scoped mode resolves the dealer
id, collects that dealer's officer ids and keeps only leads whose
`officer_id` is among them; a missing dealer id, a failed lookup or a
dealer with zero officers all return an empty 200 response before the leads
query runs. -/
def GET (officersDb : List Officer) (leadsDb : List Lead)
    (officersLookupError dbError : Bool) (req : Request) : RouteResponse Lead :=
  let officerId := req.officerIdParam
  let isPublic := req.publicParam == some "true"
  let dealerId := jsOr (getDealerFromRequest req) req.dealerIdParam
  let base := sortLeads leadsDb
  if !isPublic && jsTruthy dealerId then
    let dealerOfficers : Option (List Officer) :=
      if officersLookupError then none
      else some (officersDb.filter (fun o => some o.dealer_id == dealerId))
    match dealerOfficers with
    | some os =>
      if os.length > 0 then
        let officerIds := os.map Officer.id
        let q1 := base.filter (fun l => officerIds.contains l.officer_id)
        let q2 := if jsTruthy officerId then q1.filter (fun l => some l.officer_id == officerId)
                  else q1
        if dbError then { status := 500, body := RouteBody.err "LEADS_FETCH_ERROR" }
        else { status := 200, body := RouteBody.rows q2 }
      else { status := 200, body := RouteBody.rows [] }
    | none => { status := 200, body := RouteBody.rows [] }
  else if !isPublic then
    { status := 200, body := RouteBody.rows [] }
  else
    let q2 := if jsTruthy officerId then base.filter (fun l => some l.officer_id == officerId)
              else base
    if dbError then { status := 500, body := RouteBody.err "LEADS_FETCH_ERROR" }
    else { status := 200, body := RouteBody.rows q2 }

end LeadsApi

/-- The officer ids owned by tenant `t` in the officers table: the
ownership set used by the scoped leads query. -/
def officerIdsOf (officersDb : List Officer) (t : String) : List String :=
  (officersDb.filter (fun o => o.dealer_id == t)).map Officer.id

/-! ## Helper lemmas -/

/-- A string formed by prepending "+" has the plus character first. -/
theorem head_of_plus_append (t : String) : ("+" ++ t).data.head? = some '+' := by
  cases t with
  | mk d => simp [String.instAppend, String.append]

/-- `a || b` keeps a truthy left operand. -/
theorem jsOr_some_of_ne (t : String) (ht : t ≠ "") (q : Option String) :
    jsOr (some t) q = some t := by
  simp [jsOr, ht]

/-- A resolved non-empty dealer id is truthy. -/
theorem jsTruthy_jsOr_some (t : String) (ht : t ≠ "") (q : Option String) :
    jsTruthy (jsOr (some t) q) = true := by
  simp [jsOr_some_of_ne t ht, jsTruthy, ht]

/-- The retry loop issues at most `fuel` network calls. -/
theorem runLoop_calls_le (config : RetryConfig) (outcomes : Nat → Outcome) :
    ∀ (fuel attempt : Nat) (lastErr : Option ApiClientError),
      (runLoop config outcomes attempt fuel lastErr).calls ≤ fuel := by
  intro fuel
  induction fuel with
  | zero => intro attempt lastErr; exact Nat.le_refl 0
  | succ n ih =>
    intro attempt lastErr
    show (runLoop config outcomes attempt (n + 1) lastErr).calls ≤ n + 1
    unfold runLoop
    cases outcomes attempt with
    | success body => exact Nat.succ_le_succ (Nat.zero_le n)
    | httpError s =>
      by_cases hc :
          (!(isRetryableError (some s)) || attempt == config.maxAttempts) = true
      · simp only [hc, if_true]
        exact Nat.succ_le_succ (Nat.zero_le n)
      · simp only [Bool.not_eq_true] at hc
        simp only [hc, if_false]
        exact Nat.succ_le_succ (ih (attempt + 1) _)
    | thrown net =>
      by_cases hc : (!net || attempt == config.maxAttempts) = true
      · simp only [hc, if_true]
        exact Nat.succ_le_succ (Nat.zero_le n)
      · simp only [Bool.not_eq_true] at hc
        simp only [hc, if_false]
        exact Nat.succ_le_succ (ih (attempt + 1) _)

/-! ## Claim C7 -/

/-- A string of digits is left unchanged by the digit filter. -/
theorem filter_digits_eq (l : List Char) (h : l.all Char.isDigit = true) :
    l.filter Char.isDigit = l :=
  List.filter_eq_self.mpr (by simpa [List.all_eq_true] using h)

/-- Claim C7: the phone canonicalization maps all four supported shapes of
the same logical number to one identical canonical string.  A logical
number is modelled as its bare 9-digit subscriber string n — all digits,
length 9, not itself beginning with the trunk prefix 0 or the country code
255 (for strings outside this shape the four spellings denote different
digit sequences, not four shapes of one number).  Its four supported
shapes are the trunk form 0·n, the bare form n, the country-code form
255·n and the international form +255·n, and all four normalize to the one
canonical string +255·n. -/
theorem normalizePhoneNumber_equivalence (n : String)
    (hdig : n.data.all Char.isDigit = true)
    (hlen : n.length = 9)
    (h0 : jsStartsWith n "0" = false)
    (h255 : jsStartsWith n "255" = false) :
    normalizePhoneNumber ("0" ++ n) = "+255" ++ n
    ∧ normalizePhoneNumber n = "+255" ++ n
    ∧ normalizePhoneNumber ("255" ++ n) = "+255" ++ n
    ∧ normalizePhoneNumber ("+255" ++ n) = "+255" ++ n := by
  cases n with
  | mk l =>
    have hf : l.filter Char.isDigit = l := filter_digits_eq l hdig
    have hm0 : matchStart l ['0'] = false := h0
    have hm255 : matchStart l ['2', '5', '5'] = false := h255
    have hlen' : l.length = 9 := hlen
    have hd0 : Char.isDigit '0' = true := by decide
    have hd2 : Char.isDigit '2' = true := by decide
    have hd5 : Char.isDigit '5' = true := by decide
    have hdp : Char.isDigit '+' = false := by decide
    refine ⟨?_, ?_, ?_, ?_⟩
    · show normalizePhoneNumber (String.mk ('0' :: l))
        = String.mk ('+' :: '2' :: '5' :: '5' :: l)
      simp [normalizePhoneNumber, stripNonDigits, jsStartsWith, jsSubstringFrom,
        matchStart, String.instAppend, String.append, hf, hd0]
      rfl
    · show normalizePhoneNumber (String.mk l)
        = String.mk ('+' :: '2' :: '5' :: '5' :: l)
      simp [normalizePhoneNumber, stripNonDigits, jsStartsWith, jsSubstringFrom,
        matchStart, String.instAppend, String.append, hf, hm0, hm255, hlen']
      rfl
    · show normalizePhoneNumber (String.mk ('2' :: '5' :: '5' :: l))
        = String.mk ('+' :: '2' :: '5' :: '5' :: l)
      simp [normalizePhoneNumber, stripNonDigits, jsStartsWith, jsSubstringFrom,
        matchStart, String.instAppend, String.append, hf, hd2, hd5]
      rfl
    · show normalizePhoneNumber (String.mk ('+' :: '2' :: '5' :: '5' :: l))
        = String.mk ('+' :: '2' :: '5' :: '5' :: l)
      simp [normalizePhoneNumber, stripNonDigits, jsStartsWith, jsSubstringFrom,
        matchStart, String.instAppend, String.append, hf, hd2, hd5, hdp]
      rfl

/-- Witness for claim C7: the equivalence theorem applied to the subscriber
number 714276444, recovering the four concrete equalities of the spec. -/
theorem normalizePhoneNumber_equivalence_witness :
    normalizePhoneNumber "0714276444" = "+255714276444"
    ∧ normalizePhoneNumber "714276444" = "+255714276444"
    ∧ normalizePhoneNumber "255714276444" = "+255714276444"
    ∧ normalizePhoneNumber "+255714276444" = "+255714276444" := by
  obtain ⟨h1, h2, h3, h4⟩ :=
    normalizePhoneNumber_equivalence "714276444" (by decide) (by decide) (by decide)
      (by decide)
  have e0 : ("0714276444" : String) = "0" ++ "714276444" := by decide
  have e3 : ("255714276444" : String) = "255" ++ "714276444" := by decide
  have e4 : ("+255714276444" : String) = "+255" ++ "714276444" := by decide
  exact ⟨(congrArg normalizePhoneNumber e0).trans (h1.trans e4.symm),
    h2.trans e4.symm,
    (congrArg normalizePhoneNumber e3).trans (h3.trans e4.symm),
    (congrArg normalizePhoneNumber e4).trans (h4.trans e4.symm)⟩

/-! ## Claim C8 -/

/-- Claim C8: the phone canonicalization is total and never raises: every
input string, including the malformed "abc123", yields a string beginning
with the plus character, via the fallback branch prepending the country
calling code. -/
theorem normalizePhoneNumber_total_plus :
    (∀ s : String, (normalizePhoneNumber s).data.head? = some '+')
    ∧ normalizePhoneNumber "abc123" = "+255123" := by
  constructor
  · intro s
    unfold normalizePhoneNumber
    exact head_of_plus_append _
  · decide

/-! ## Claim C10 -/

/-- Claim C10: the two independent copies of the phone canonicalization
algorithm — `normalizePhoneNumber` used by dealer login and the inline
normalization of the officer login component — compute identical results on
every input string. -/
theorem normalizePhoneNumber_copies_agree :
    ∀ s : String, normalizePhoneNumber s = officerLoginNormalizePhone s :=
  fun _ => rfl

/-! ## Claim C6 -/

/-- Claim C6 counterexample: status 501 is not one of the six statuses the
claim lists as retryable, so the claim predicts retryable=false for it, but
the classifier (whose server-error arm is the whole 5xx range) classifies it
retryable=true. -/
theorem isRetryableError_501_retryable : isRetryableError (some 501) = true := rfl

/-- Claim C6 (amended): the classifier is a pure function of the single
outcome; a transport failure with no response is retryable, a status is
retryable exactly when it is at least 500 or equals 429 or 408 — so
500, 502, 503, 504, 429, 408 are retryable, while 400, 401, 403, 404, 409
and every other status below 500 are not, and every other 5xx status is. -/
theorem isRetryableError_table :
    isRetryableError none = true
    ∧ ∀ s : Nat,
        isRetryableError (some s)
          = (decide (500 ≤ s) || decide (s = 429) || decide (s = 408)) := by
  refine ⟨rfl, fun s => ?_⟩
  unfold isRetryableError
  by_cases h5 : 500 ≤ s
  · simp [h5]
  · by_cases h9 : s = 429
    · simp [h5, h9]
    · by_cases h8 : s = 408
      · simp [h5, h9, h8]
      · simp [h5, h9, h8]

/-! ## Claim C5 -/

/-- A retry configuration with backoff multiplier zero, permitted by the
`RetryConfig` type. -/
def zeroMultiplierConfig : RetryConfig :=
  { maxAttempts := 2, baseDelay := 1000, maxDelay := 30000, backoffMultiplier := 0 }

/-- Claim C5 counterexample: the claim asserts backoff monotonicity for
every retry configuration, but with backoffMultiplier = 0 and
baseDelay = 1000 the delay after attempt 1 is 1000 while the delay after
attempt 2 is 0, so delay(1) <= delay(2) fails. -/
theorem backoff_monotonicity_fails_multiplier_zero :
    ¬ (calculateDelay 1 zeroMultiplierConfig ≤ calculateDelay 2 zeroMultiplierConfig) := by
  decide

/-- Claim C5 (amended): for every retry configuration the backoff delay
before the retry following attempt n equals
min(baseDelayMs × backoffMultiplier^(n−1), maxDelayMs); for configurations
with backoffMultiplier ≥ 1 (all deployed ones) the delays are monotone in
the attempt index, and no delay ever exceeds maxDelayMs. -/
theorem calculateDelay_formula_monotone (config : RetryConfig) :
    (∀ attempt : Nat, calculateDelay attempt config
        = min (config.baseDelay * config.backoffMultiplier ^ (attempt - 1)) config.maxDelay)
    ∧ (1 ≤ config.backoffMultiplier →
        ∀ i j : Nat, i ≤ j → calculateDelay i config ≤ calculateDelay j config)
    ∧ (∀ attempt : Nat, calculateDelay attempt config ≤ config.maxDelay) := by
  refine ⟨fun _ => rfl, fun hm i j hij => ?_, fun attempt => Nat.min_le_right _ _⟩
  unfold calculateDelay
  exact min_le_min
    (Nat.mul_le_mul_left _ (Nat.pow_le_pow_right hm (Nat.sub_le_sub_right hij 1)))
    le_rfl

/-- Witness for claim C5: the amended theorem applied to the default
configuration at attempts 1 ≤ 2. -/
theorem calculateDelay_formula_monotone_witness :
    calculateDelay 1 DEFAULT_RETRY_CONFIG ≤ calculateDelay 2 DEFAULT_RETRY_CONFIG :=
  (calculateDelay_formula_monotone DEFAULT_RETRY_CONFIG).2.1 (by decide) 1 2 (by decide)

/-! ## Claim C4 -/

/-- The configuration of spec scenario 3, merged with the default maxDelay. -/
def scenario3Config : RetryConfig :=
  { maxAttempts := 4, baseDelay := 1000, maxDelay := 30000, backoffMultiplier := 2 }

/-- Attempt oracle of spec scenario 3: three 503 responses, then a 200 with
body "ok". -/
def scenario3Outcomes : Nat → Outcome :=
  fun attempt => if attempt ≤ 3 then Outcome.httpError 503 else Outcome.success "ok"

/-- Claim C4 counterexample: under scenario 3 the request does return the
200 body, but after three sleeps, not two — the loop also sleeps after the
failed third attempt, for 4000ms. -/
theorem scenario3_not_two_sleeps :
    (apiRequest scenario3Config scenario3Outcomes).result = Except.ok "ok"
    ∧ (apiRequest scenario3Config scenario3Outcomes).delays ≠ [1000, 2000]
    ∧ (apiRequest scenario3Config scenario3Outcomes).delays.length = 3 :=
  ⟨rfl, by decide, rfl⟩

/-- Claim C4 (amended): with maxAttempts=4, baseDelayMs=1000,
backoffMultiplier=2, three consecutive 503 responses followed by one 200
yield the 200 body after exactly three sleeps, of 1000ms, 2000ms and
4000ms. -/
theorem scenario3_three_sleeps :
    (apiRequest scenario3Config scenario3Outcomes).result = Except.ok "ok"
    ∧ (apiRequest scenario3Config scenario3Outcomes).delays = [1000, 2000, 4000] :=
  ⟨rfl, by decide⟩

/-! ## Claim C3 -/

/-- Claim C3: one `apiRequest` call issues at most `config.maxAttempts`
network calls for every attempt-outcome oracle; within the loop a
successful attempt terminates at once with the response body, and an
attempt whose classified error is not retryable — or that exhausts the
attempt budget — terminates at once with that classified error. -/
theorem apiRequest_attempt_bound (config : RetryConfig) (outcomes : Nat → Outcome) :
    (apiRequest config outcomes).calls ≤ config.maxAttempts
    ∧ (∀ (attempt fuel : Nat) (lastErr : Option ApiClientError) (body : String),
        outcomes attempt = Outcome.success body →
        runLoop config outcomes attempt (fuel + 1) lastErr
          = { result := Except.ok body, calls := 1, delays := [] })
    ∧ (∀ (attempt fuel : Nat) (lastErr : Option ApiClientError) (e : ApiClientError),
        classifyOutcome (outcomes attempt) = some e →
        e.isRetryable = false ∨ attempt = config.maxAttempts →
        runLoop config outcomes attempt (fuel + 1) lastErr
          = { result := Except.error (some e), calls := 1, delays := [] }) := by
  refine ⟨runLoop_calls_le config outcomes config.maxAttempts 1 none, ?_, ?_⟩
  · intro attempt fuel lastErr body h
    unfold runLoop
    rw [h]
  · intro attempt fuel lastErr e hclass hstop
    unfold runLoop
    cases ho : outcomes attempt with
    | success body =>
      rw [ho] at hclass
      exact absurd hclass (by simp [classifyOutcome])
    | httpError s =>
      rw [ho] at hclass
      simp only [classifyOutcome, Option.some.injEq] at hclass
      subst hclass
      have hcond :
          (!(isRetryableError (some s)) || attempt == config.maxAttempts) = true := by
        rcases hstop with h1 | h1
        · have h1' : isRetryableError (some s) = false := h1
          simp [h1']
        · simp [h1]
      simp [hcond]
    | thrown net =>
      rw [ho] at hclass
      simp only [classifyOutcome, Option.some.injEq] at hclass
      subst hclass
      have hcond : (!net || attempt == config.maxAttempts) = true := by
        rcases hstop with h1 | h1
        · have h1' : net = false := h1
          simp [h1']
        · simp [h1]
      simp [hcond]

/-- Witness for claim C3: the bound theorem applied to the default
configuration and an oracle whose every attempt succeeds with body "ok";
the success hypothesis is discharged by computation at attempt 5. -/
theorem apiRequest_attempt_bound_witness :
    runLoop DEFAULT_RETRY_CONFIG (fun _ => Outcome.success "ok") 5 1 none
      = { result := Except.ok "ok", calls := 1, delays := [] } :=
  (apiRequest_attempt_bound DEFAULT_RETRY_CONFIG
    (fun _ => Outcome.success "ok")).2.1 5 0 none "ok" rfl

/-! ## Gate helper lemmas -/

/-- Supabase ordering only permutes the leads: membership is unchanged. -/
theorem mem_sortLeads (l : List Lead) (x : Lead) : x ∈ sortLeads l ↔ x ∈ l := by
  unfold sortLeads
  exact List.mem_mergeSort

/-- The scoped officers query returns exactly the dealer-filtered table. -/
theorem officersGET_scoped_eq (officersDb : List Officer) (A : String) (hA : A ≠ "") :
    OfficersApi.GET officersDb false
      { headerDealerId := some A, search := none, publicParam := none, dealerIdParam := none }
      = { status := 200,
          body := RouteBody.rows (officersDb.filter (fun o => o.dealer_id == A)) } := by
  have hds : jsOr (some A) none = some A := jsOr_some_of_ne A hA none
  have htr : jsTruthy (some A) = true := by simp [jsTruthy, hA]
  have hpub : (((none : Option String)) == some "true") = false := rfl
  simp [OfficersApi.GET, OfficersApi.getDealerFromRequest, hds, htr, hpub, jsTruthy, hA]

/-- The scoped leads query returns exactly the leads whose officer id lies
in the id set of the officers owned by the dealer. -/
theorem leadsGET_scoped_eq (officersDb : List Officer) (leadsDb : List Lead)
    (A : String) (hA : A ≠ "") :
    LeadsApi.GET officersDb leadsDb false false
      { headerDealerId := some A, officerIdParam := none, publicParam := none,
        dealerIdParam := none }
      = { status := 200,
          body := RouteBody.rows ((sortLeads leadsDb).filter
            (fun l => (officerIdsOf officersDb A).contains l.officer_id)) } := by
  have hds : jsOr (some A) none = some A := jsOr_some_of_ne A hA none
  have htr : jsTruthy (some A) = true := by simp [jsTruthy, hA]
  have hpub : (((none : Option String)) == some "true") = false := rfl
  by_cases hos : officersDb.filter (fun o => o.dealer_id == A) = []
  · simp [LeadsApi.GET, LeadsApi.getDealerFromRequest, hds, htr, hpub, jsTruthy,
      officerIdsOf, hos, List.filter_eq_nil_iff]
  · have hlen : 0 < (officersDb.filter (fun o => o.dealer_id == A)).length :=
      List.length_pos.mpr hos
    simp [LeadsApi.GET, LeadsApi.getDealerFromRequest, hds, htr, hpub, jsTruthy, hA,
      officerIdsOf, hlen]

/-! ## Claim C1 -/

/-- Claim C1: a Scoped(T) officers query returns exactly the officers whose
dealer id equals T, and a Scoped(T) leads query returns exactly the leads
whose officer id lies in the id set of the officers owned by T; in
particular, for a tenant B distinct from A (and, for leads, with a disjoint
officer-id set) a Scoped(A) query never returns an officer or lead owned by
B. -/
theorem scoped_query_tenant_isolation
    (officersDb : List Officer) (leadsDb : List Lead) (A : String) (hA : A ≠ "") :
    OfficersApi.GET officersDb false
        { headerDealerId := some A, search := none, publicParam := none, dealerIdParam := none }
      = { status := 200,
          body := RouteBody.rows (officersDb.filter (fun o => o.dealer_id == A)) }
    ∧ (∀ o : Officer, o ∈ officersDb.filter (fun o => o.dealer_id == A)
        ↔ o ∈ officersDb ∧ o.dealer_id = A)
    ∧ LeadsApi.GET officersDb leadsDb false false
        { headerDealerId := some A, officerIdParam := none, publicParam := none,
          dealerIdParam := none }
      = { status := 200,
          body := RouteBody.rows ((sortLeads leadsDb).filter
            (fun l => (officerIdsOf officersDb A).contains l.officer_id)) }
    ∧ (∀ l : Lead,
        l ∈ (sortLeads leadsDb).filter
            (fun l => (officerIdsOf officersDb A).contains l.officer_id)
        ↔ l ∈ leadsDb ∧ l.officer_id ∈ officerIdsOf officersDb A)
    ∧ (∀ B : String, B ≠ A →
        (∀ o ∈ officersDb.filter (fun o => o.dealer_id == A), o.dealer_id ≠ B)
        ∧ (List.Disjoint (officerIdsOf officersDb A) (officerIdsOf officersDb B) →
           ∀ l ∈ (sortLeads leadsDb).filter
             (fun l => (officerIdsOf officersDb A).contains l.officer_id),
             l.officer_id ∉ officerIdsOf officersDb B)) := by
  refine ⟨officersGET_scoped_eq officersDb A hA, ?_,
    leadsGET_scoped_eq officersDb leadsDb A hA, ?_, ?_⟩
  · intro o
    simp [List.mem_filter]
  · intro l
    simp [List.mem_filter, mem_sortLeads]
  · intro B hB
    constructor
    · intro o ho
      have h2 : o.dealer_id = A := by simpa using (List.mem_filter.mp ho).2
      rw [h2]
      exact fun hAB => hB hAB.symm
    · intro hdisj l hl
      have hmem : l.officer_id ∈ officerIdsOf officersDb A := by
        simpa using (List.mem_filter.mp hl).2
      exact fun hBmem => hdisj hmem hBmem

/-- A one-officer table for tenant A, used to instantiate claim C1. -/
def sampleOfficerA : Officer :=
  { id := "o1", name := "Alice", phone := "+255700000001", dealer_id := "A" }

/-- Witness for claim C1: the isolation theorem applied to a concrete
one-officer table for tenant A, with the filter evaluated. -/
theorem scoped_query_tenant_isolation_witness :
    OfficersApi.GET [sampleOfficerA] false
      { headerDealerId := some "A", search := none, publicParam := none, dealerIdParam := none }
      = { status := 200, body := RouteBody.rows [sampleOfficerA] } := by
  have h := (scoped_query_tenant_isolation [sampleOfficerA] [] "A" (by decide)).1
  rw [(by decide : List.filter (fun o => o.dealer_id == "A") [sampleOfficerA]
    = [sampleOfficerA])] at h
  exact h

/-! ## Claim C2 -/

/-- Claim C2: for both collections, if Scoped mode is requested (the public
flag absent or not "true") and no dealer id is resolvable from the header or
the dealer_id parameter, the gate returns an empty 200 response — never an
error response and never the unfiltered collection — even when the database
would error; likewise a Scoped query for a tenant owning zero officers
returns the empty leads set with status 200. -/
theorem fail_closed_empty_collection
    (officersDb : List Officer) (leadsDb : List Lead)
    (hdr q publicP searchP officerIdP : Option String) (sErr dbErr : Bool)
    (hp : publicP ≠ some "true") (hres : jsTruthy (jsOr hdr q) = false) :
    OfficersApi.GET officersDb dbErr
        { headerDealerId := hdr, search := searchP, publicParam := publicP, dealerIdParam := q }
      = { status := 200, body := RouteBody.rows [] }
    ∧ LeadsApi.GET officersDb leadsDb sErr dbErr
        { headerDealerId := hdr, officerIdParam := officerIdP, publicParam := publicP,
          dealerIdParam := q }
      = { status := 200, body := RouteBody.rows [] }
    ∧ (∀ T : String, T ≠ "" →
        officersDb.filter (fun o => o.dealer_id == T) = [] →
        LeadsApi.GET officersDb leadsDb sErr dbErr
          { headerDealerId := some T, officerIdParam := officerIdP, publicParam := publicP,
            dealerIdParam := q }
          = { status := 200, body := RouteBody.rows [] }) := by
  have hpb : (publicP == some "true") = false := beq_eq_false_iff_ne.mpr hp
  refine ⟨?_, ?_, ?_⟩
  · simp [OfficersApi.GET, OfficersApi.getDealerFromRequest, hpb, hres]
  · simp [LeadsApi.GET, LeadsApi.getDealerFromRequest, hpb, hres]
  · intro T hT hzero
    have hds : jsOr (some T) q = some T := jsOr_some_of_ne T hT q
    have htr : jsTruthy (some T) = true := by simp [jsTruthy, hT]
    cases sErr with
    | true => simp [LeadsApi.GET, LeadsApi.getDealerFromRequest, hpb, hds, htr]
    | false =>
      simp [LeadsApi.GET, LeadsApi.getDealerFromRequest, hpb, hds, htr, hzero]

/-- Witness for claim C2: both gates applied with no header, no parameters
and a database that would error, returning the empty 200 response. -/
theorem fail_closed_empty_collection_witness :
    OfficersApi.GET [sampleOfficerA] true
      { headerDealerId := none, search := none, publicParam := none, dealerIdParam := none }
      = { status := 200, body := RouteBody.rows [] } :=
  (fail_closed_empty_collection [sampleOfficerA] [] none none none none none true true
    (by decide) (by decide)).1

/-! ## Claim C9 -/

/-- Claim C9: an outgoing request carries the x-dealer-id header exactly
when the client-local store holds a dealer session with a non-empty id
(yielding that id); server-side the dealer id is resolved from the header,
with the dealer_id query parameter consulted only when the header does not
resolve, and the explicit public flag forces Public mode — the unfiltered
collection — regardless of the header. -/
theorem identity_header_resolution :
    (∀ (store : Option Dealer) (i : String),
        requestDealerHeader store = some i ↔ ∃ d, store = some d ∧ d.id = i ∧ i ≠ "")
    ∧ (∀ t : String, t ≠ "" → ∀ q : Option String, jsOr (some t) q = some t)
    ∧ (∀ q : Option String, jsOr none q = q)
    ∧ (∀ (officersDb : List Officer) (hdr q : Option String),
        OfficersApi.GET officersDb false
          { headerDealerId := hdr, search := none, publicParam := some "true",
            dealerIdParam := q }
          = { status := 200, body := RouteBody.rows officersDb })
    ∧ (∀ (officersDb : List Officer) (leadsDb : List Lead) (hdr q : Option String)
        (sErr : Bool),
        LeadsApi.GET officersDb leadsDb sErr false
          { headerDealerId := hdr, officerIdParam := none, publicParam := some "true",
            dealerIdParam := q }
          = { status := 200, body := RouteBody.rows (sortLeads leadsDb) }) := by
  have hpub2 : ((some "true" : Option String) == some "true") = true := rfl
  refine ⟨?_, fun t ht q => jsOr_some_of_ne t ht q, fun q => rfl, ?_, ?_⟩
  · intro store i
    cases store with
    | none => simp [requestDealerHeader, getCurrentDealerId]
    | some d =>
      by_cases hid : d.id = ""
      · constructor
        · intro h
          simp [requestDealerHeader, getCurrentDealerId, hid] at h
        · rintro ⟨d', hd', hdi, hne⟩
          injection hd' with hdd
          subst hdd
          rw [hid] at hdi
          exact absurd hdi.symm hne
      · have hred : requestDealerHeader (some d) = some d.id := by
          simp [requestDealerHeader, getCurrentDealerId, hid]
        rw [hred]
        constructor
        · intro h
          injection h with h
          exact ⟨d, rfl, h, fun hie => hid (h.trans hie)⟩
        · rintro ⟨d', hd', hdi, hne⟩
          injection hd' with hdd
          subst hdd
          rw [hdi]
  · intro officersDb hdr q
    simp [OfficersApi.GET, OfficersApi.getDealerFromRequest, hpub2, jsTruthy]
  · intro officersDb leadsDb hdr q sErr
    simp [LeadsApi.GET, LeadsApi.getDealerFromRequest, hpub2, jsTruthy]

/-- Witness for claim C9: the resolution theorem applied at a concrete
non-empty dealer id with no query parameter. -/
theorem identity_header_resolution_witness :
    jsOr (some "T") none = some "T" :=
  identity_header_resolution.2.1 "T" (by decide) none
